import Mathlib

/-!
Verification of the RDS Blue/Green instance-class change tools
(`rds_bg_resize.py`, `rds_bg_downgrade.py`, `config.py`) against their
natural-language specification.

The Python sources are shallowly embedded below: Python floats are modelled
as rationals (no claim here depends on rounding), `None`-able metric values
as `Option ℚ`, provider poll loops as functions over explicit poll sequences
(a list or stream of observed results), and exceptions as `Except` /
dedicated result types.  The two scripts share most code; where they differ
(memory threshold of the health gate, suffix stripping in rollback) both
variants are embedded, in the namespaces `Resize` and `Downgrade`.
-/

namespace RDSBG

/-! ## Constants (config.py and module-level constants of both scripts) -/

/-- Constant `GIB = 1024 ** 3`. -/
def GIB : ℚ := 1024 ^ 3

/-- Constant `CPU_WARNING_THRESHOLD = 40.0`. -/
def CPU_WARNING_THRESHOLD : ℚ := 40

/-- Constant `CPU_CRITICAL_THRESHOLD = 80.0`. -/
def CPU_CRITICAL_THRESHOLD : ℚ := 80

/-- Constant `MEMORY_WARNING_GIB = 1.0`. -/
def MEMORY_WARNING_GIB : ℚ := 1

/-- Constant `MEMORY_CRITICAL_GIB = 0.5`. -/
def MEMORY_CRITICAL_GIB : ℚ := 1 / 2

/-- Constant `COMBINED_CPU_THRESHOLD = 30.0`. -/
def COMBINED_CPU_THRESHOLD : ℚ := 30

/-- Constant `COMBINED_MEMORY_THRESHOLD = 2.0 * GIB`. -/
def COMBINED_MEMORY_THRESHOLD : ℚ := 2 * GIB

/-- Tuple `OLD_RESOURCE_SUFFIXES = ("-old1", "-old2", "-old", "-blue", "-previous")`
(rds_bg_resize.py line 67, config.py line 11; used by the resize script's
`delete_old_resource`, `find_old_resource_like` and the rollback suffix
stripping, and by the downgrade script's `find_old_resource_like`). -/
def OLD_RESOURCE_SUFFIXES : List String :=
  ["-old1", "-old2", "-old", "-blue", "-previous"]

/-- The literal suffix tuple `("-old", "-old1", "-old2", "-blue", "-previous")`
inlined in the downgrade script's `delete_old_resource` (line 589): same set
as `OLD_RESOURCE_SUFFIXES`, different order. -/
def DOWNGRADE_DELETE_SUFFIXES : List String :=
  ["-old", "-old1", "-old2", "-blue", "-previous"]

/-! ## Telemetry (prechecks / print_precheck_summary) -/

/-- The metrics dictionary returned by `prechecks`: one optional averaged
datapoint per metric (`None` = no datapoint in the 15-minute window). -/
structure Metrics where
  cpu : Option ℚ
  freeMem : Option ℚ
  readIops : Option ℚ
  writeIops : Option ℚ
  conns : Option ℚ

/-- Python's `metrics.get(key) or 0.0`: `None` (and `0.0` itself, which is
falsy) becomes `0.0`. -/
def orZero (x : Option ℚ) : ℚ := x.getD 0

namespace Resize

/-- Function `print_precheck_summary` of rds_bg_resize.py (lines 267-288): sequential
threshold checks on the coerced metric values; any failing rule clears the
`ok` flag; printing is ignored by the model. -/
def print_precheck_summary (m : Metrics) : Bool :=
  let cpu := orZero m.cpu
  let free_mem := orZero m.freeMem
  let conns := orZero m.conns
  let ok := true
  let ok := if CPU_WARNING_THRESHOLD < cpu then false else ok
  let ok := if free_mem < MEMORY_WARNING_GIB * GIB then false else ok
  let ok := if 0 < conns ∧ COMBINED_CPU_THRESHOLD < cpu ∧ free_mem < COMBINED_MEMORY_THRESHOLD
    then false else ok
  ok

end Resize

namespace Downgrade

/-- Function `print_precheck_summary` of rds_bg_downgrade.py (lines 239-257): same
shape as the resize variant but with the literal thresholds of that file —
in particular the memory warning threshold is `1.5 * 1024**3`, not
`1.0 GiB`. -/
def print_precheck_summary (m : Metrics) : Bool :=
  let cpu := orZero m.cpu
  let free_mem := orZero m.freeMem
  let conns := orZero m.conns
  let ok := true
  let ok := if (40 : ℚ) < cpu then false else ok
  let ok := if free_mem < (3 / 2) * GIB then false else ok
  let ok := if 0 < conns ∧ (30 : ℚ) < cpu ∧ free_mem < 2 * GIB then false else ok
  ok

end Downgrade

/-! ## Instance specs and the suitability check (check_target_class_suitability) -/

/-- Table `INSTANCE_SPECS` (config.py lines 17-35, identical inline copy in
rds_bg_resize.py lines 73-100): `{instance_class: (vCPUs, memory_gib)}`,
embedded as an association list. -/
def INSTANCE_SPECS : List (String × ℕ × ℕ) :=
  [("db.t3.micro", 2, 1), ("db.t3.small", 2, 2), ("db.t3.medium", 2, 4), ("db.t3.large", 2, 8),
   ("db.t3.xlarge", 4, 16), ("db.t3.2xlarge", 8, 32), ("db.t4g.micro", 2, 1), ("db.t4g.small", 2, 2),
   ("db.t4g.medium", 2, 4), ("db.t4g.large", 2, 8), ("db.t4g.xlarge", 4, 16), ("db.t4g.2xlarge", 8, 32),
   ("db.m5.large", 2, 8), ("db.m5.xlarge", 4, 16), ("db.m5.2xlarge", 8, 32), ("db.m5.4xlarge", 16, 64),
   ("db.m5.8xlarge", 32, 128), ("db.m5.12xlarge", 48, 192), ("db.m5.16xlarge", 64, 256), ("db.m5.24xlarge", 96, 384),
   ("db.m6g.large", 2, 8), ("db.m6g.xlarge", 4, 16), ("db.m6g.2xlarge", 8, 32), ("db.m6g.4xlarge", 16, 64),
   ("db.m6g.8xlarge", 32, 128), ("db.m6g.12xlarge", 48, 192), ("db.m6g.16xlarge", 64, 256),
   ("db.m6i.large", 2, 8), ("db.m6i.xlarge", 4, 16), ("db.m6i.2xlarge", 8, 32), ("db.m6i.4xlarge", 16, 64),
   ("db.m6i.8xlarge", 32, 128), ("db.m6i.12xlarge", 48, 192), ("db.m6i.16xlarge", 64, 256),
   ("db.m6i.24xlarge", 96, 384), ("db.m6i.32xlarge", 128, 512),
   ("db.r5.large", 2, 16), ("db.r5.xlarge", 4, 32), ("db.r5.2xlarge", 8, 64), ("db.r5.4xlarge", 16, 128),
   ("db.r5.8xlarge", 32, 256), ("db.r5.12xlarge", 48, 384), ("db.r5.16xlarge", 64, 512), ("db.r5.24xlarge", 96, 768),
   ("db.r6g.large", 2, 16), ("db.r6g.xlarge", 4, 32), ("db.r6g.2xlarge", 8, 64), ("db.r6g.4xlarge", 16, 128),
   ("db.r6g.8xlarge", 32, 256), ("db.r6g.12xlarge", 48, 384), ("db.r6g.16xlarge", 64, 512)]

/-- Python `dict.get` on the association list. -/
def lookupSpec : List (String × ℕ × ℕ) → String → Option (ℕ × ℕ)
  | [], _ => none
  | (k, v) :: rest, key => if k = key then some v else lookupSpec rest key

/-- The messages `check_target_class_suitability` can append to its `issues`
and `warnings` lists, abstracted from their formatted text. -/
inductive Issue
  | cpuCritical
  | memCritical
  | cpuWarning
  | memWarning
deriving DecidableEq

/-- The observable outcome of `check_target_class_suitability`: its boolean
return value, the two accumulated lists, and the intermediate projections
(`none` when the early `specs not in database` soft-pass return fires). -/
structure SuitabilityResult where
  ok : Bool
  issues : List Issue
  warnings : List Issue
  projCpu : Option ℚ
  projMem : Option ℚ
  isDowngrade : Option Bool

/-- Function `check_target_class_suitability` of rds_bg_resize.py (lines 346-409).
Early soft pass when either class is missing from `INSTANCE_SPECS`;
otherwise projects CPU as `cpu * (curr_vcpu / tgt_vcpu)` (cpu unchanged when
`tgt_vcpu` is 0), projects free memory as `free_mem_gib + (tgt_mem - curr_mem)`,
collects critical issues / downgrade-only warnings with the `elif` structure
of the source, and returns `False` exactly when `issues` is nonempty. -/
def check_target_class_suitability (currentClass targetClass : String) (m : Metrics) :
    SuitabilityResult :=
  match lookupSpec INSTANCE_SPECS currentClass, lookupSpec INSTANCE_SPECS targetClass with
  | some (curr_vcpu, curr_mem), some (tgt_vcpu, tgt_mem) =>
    let is_downgrade : Bool := tgt_vcpu < curr_vcpu || tgt_mem < curr_mem
    let cpu := orZero m.cpu
    let projected_cpu : ℚ := if 0 < tgt_vcpu then cpu * ((curr_vcpu : ℚ) / (tgt_vcpu : ℚ)) else cpu
    let free_mem_gib : ℚ := orZero m.freeMem / GIB
    let projected_mem : ℚ := free_mem_gib + ((tgt_mem : ℚ) - (curr_mem : ℚ))
    let cpuIssues : List Issue :=
      if CPU_CRITICAL_THRESHOLD < projected_cpu then [.cpuCritical] else []
    let cpuWarns : List Issue :=
      if ¬ CPU_CRITICAL_THRESHOLD < projected_cpu ∧ CPU_WARNING_THRESHOLD < projected_cpu ∧
          is_downgrade = true then [.cpuWarning] else []
    let memIssues : List Issue :=
      if projected_mem < MEMORY_CRITICAL_GIB then [.memCritical] else []
    let memWarns : List Issue :=
      if ¬ projected_mem < MEMORY_CRITICAL_GIB ∧ projected_mem < MEMORY_WARNING_GIB ∧
          is_downgrade = true then [.memWarning] else []
    let issues := cpuIssues ++ memIssues
    { ok := issues.isEmpty, issues := issues, warnings := cpuWarns ++ memWarns,
      projCpu := some projected_cpu, projMem := some projected_mem,
      isDowngrade := some is_downgrade }
  | _, _ =>
    { ok := true, issues := [], warnings := [], projCpu := none, projMem := none,
      isDowngrade := none }

/-! ## Blue/Green orchestrator: wait_switch_ready and switch_over

A polled status sequence is a function `polls : ℕ → Option String`: the
result of `bg_status` at the i-th poll (`none` = NotFound, i.e. the provider
raised `BlueGreenDeploymentNotFoundFault`).  `wait_switch_ready` checks a
wall-clock deadline before each poll; with a 30-second interval and a
90-minute timeout that bounds the number of polls, modelled as explicit
fuel (`90 * 60 / 30 = 180` polls for the default parameters). -/

/-- The ready-to-switch tuple `("SWITCH_READY", "AVAILABLE")` of
`wait_switch_ready`. -/
def READY_STATUSES : List String := ["SWITCH_READY", "AVAILABLE"]

/-- The terminal tuple `("SWITCHOVER_COMPLETED", "SWITCHOVER_FAILED", "DELETED")`
of `wait_switch_ready`. -/
def TERMINAL_STATUSES : List String := ["SWITCHOVER_COMPLETED", "SWITCHOVER_FAILED", "DELETED"]

/-- The loop body of `wait_switch_ready` (rds_bg_resize.py lines 523-545,
identical in rds_bg_downgrade.py lines 414-436), with the wall-clock deadline
replaced by poll fuel.  Fuel 0 is the `while time.time() < deadline` guard
failing: `Timed out while waiting` → `False`.  A `None` status (`NotFound`)
returns `False`; a ready status returns `True`; a terminal status returns
`status == "SWITCHOVER_COMPLETED"`; anything else sleeps and re-polls. -/
def wait_switch_ready (polls : ℕ → Option String) : ℕ → ℕ → Bool
  | 0, _ => false
  | fuel + 1, i =>
    match polls i with
    | none => false
    | some status =>
      if status ∈ READY_STATUSES then true
      else if status ∈ TERMINAL_STATUSES then status = "SWITCHOVER_COMPLETED"
      else wait_switch_ready polls fuel (i + 1)

/-- A poll observation that makes `wait_switch_ready` stop polling:
`NotFound`, or a ready / terminal status. -/
def decisiveStatus (status : String) : Bool :=
  status ∈ READY_STATUSES || status ∈ TERMINAL_STATUSES

/-- The first observation at which `wait_switch_ready` stops, within the
given fuel: `some none` = NotFound observed, `some (some st)` = ready or
terminal status `st` observed, `none` = the wait times out first. -/
def firstDecisiveEvent (polls : ℕ → Option String) : ℕ → ℕ → Option (Option String)
  | 0, _ => none
  | fuel + 1, i =>
    match polls i with
    | none => some none
    | some status =>
      if decisiveStatus status then some (some status)
      else firstDecisiveEvent polls fuel (i + 1)

/-- The two ways `switch_over` returns without raising: a poll observed
`SWITCHOVER_COMPLETED`, or a poll observed NotFound (the quiet
`print(...); return` branch). -/
inductive SwitchReturn
  | completed
  | notFoundQuiet
deriving DecidableEq

/-- The `sleep(10)` literal of the `switch_over` polling loop. -/
def switchPollIntervalSeconds : ℕ := 10

/-- Function `switch_over` of rds_bg_resize.py (lines 547-562, identical in
rds_bg_downgrade.py lines 438-453) after the cut-over command is issued,
run against a finite prefix of the poll sequence: `none` = the loop is
still polling after the listed observations (the loop has no timeout),
`some (.ok r)` = a normal return, `some (.error st)` = the
`RuntimeError` carrying the final status `st`. -/
def switch_over : List (Option String) → Option (Except String SwitchReturn)
  | [] => none
  | none :: _ => some (.ok .notFoundQuiet)
  | some st :: rest =>
    if st = "SWITCHOVER_COMPLETED" then some (.ok .completed)
    else if st = "SWITCHOVER_FAILED" ∨ st = "DELETED" then some (.error st)
    else switch_over rest

/-- A poll observation that terminates the `switch_over` loop. -/
def isSwitchDecisive : Option String → Bool
  | none => true
  | some st => st = "SWITCHOVER_COMPLETED" ∨ st = "SWITCHOVER_FAILED" ∨ st = "DELETED"

/-- What `switch_over` does at its first decisive observation. -/
def switchDecision : Option String → Except String SwitchReturn
  | none => .ok .notFoundQuiet
  | some st => if st = "SWITCHOVER_COMPLETED" then .ok .completed else .error st

/-! ## Snapshot wait (wait_snapshot_progress) -/

/-- One poll of the snapshot describe call: a successful describe with a
status string and a percent-progress value, a snapshot-not-found
`ClientError` (`DBSnapshotNotFound` / `DBClusterSnapshotNotFoundFault`), or
any other `ClientError` code. -/
inductive SnapPoll
  | ok (status : String) (pct : ℤ)
  | errNotFound
  | errOther (code : String)

/-- The outcome of running `wait_snapshot_progress` against a finite prefix
of the poll sequence. -/
inductive SnapResult
  | done
  | raised (code : String)
  | pending
deriving DecidableEq

/-- Function `wait_snapshot_progress` of rds_bg_resize.py (lines 292-318, same control
flow in rds_bg_downgrade.py lines 261-285): return when status is
`"available"`; swallow a not-found `ClientError` and re-poll; re-raise any
other `ClientError`; the percent-progress value only drives printing. -/
def wait_snapshot_progress : List SnapPoll → SnapResult
  | [] => .pending
  | .ok status _ :: rest => if status = "available" then .done else wait_snapshot_progress rest
  | .errNotFound :: rest => wait_snapshot_progress rest
  | .errOther code :: _ => .raised code

/-- Rewrite the percent-progress value of a successful poll, leaving errors
untouched: used to state that progress values never influence control flow. -/
def mapPct (f : ℤ → ℤ) : SnapPoll → SnapPoll
  | .ok status pct => .ok status (f pct)
  | .errNotFound => .errNotFound
  | .errOther code => .errOther code

/-- A poll observation at which `wait_snapshot_progress` stops looping. -/
def isSnapDecisive : SnapPoll → Bool
  | .ok status _ => status = "available"
  | .errNotFound => false
  | .errOther _ => true

/-- What `wait_snapshot_progress` does at a decisive poll: return on an
`available` status, re-raise any non-not-found `ClientError`. -/
def snapDecision : SnapPoll → SnapResult
  | .ok _ _ => .done
  | .errNotFound => .pending
  | .errOther code => .raised code

/-! ## Rollback helpers and cleanup (find_old_resource_like, rollback
suffix stripping, delete_old_resource) -/

/-- One `DBInstances` entry as consumed by the rollback/cleanup helpers:
its identifier and its `DBInstanceClass`. -/
structure DBInstanceInfo where
  id : String
  instClass : String
deriving DecidableEq

/-- One `DBClusters` entry: its identifier and the writer instance class
that `find_old_resource_like` resolves for it (`none` when no writer is
found or the secondary describe fails). -/
structure DBClusterInfo where
  id : String
  writerClass : Option String
deriving DecidableEq

/-- The record `find_old_resource_like` returns:
`{"type": ..., "id": ..., "class": ...}`. -/
structure OldResourceHit where
  rtype : String
  id : String
  instClass : Option String
deriving DecidableEq

/-- The match test of `find_old_resource_like`:
`any(iid == base_identifier + suf for suf in suffixes)` — the identifier must
equal `base ++ suffix` exactly. -/
def matchesOldName (base id : String) : Bool :=
  OLD_RESOURCE_SUFFIXES.any (fun suf => id = base ++ suf)

/-- Function `find_old_resource_like` (rds_bg_resize.py lines 736-767, same logic in
rds_bg_downgrade.py lines 633-667): scan the provider's instance list in
listing order for the first identifier equal to `base + suffix` for any
suffix, then the cluster list; instances are checked before clusters. -/
def find_old_resource_like (base : String) (insts : List DBInstanceInfo)
    (clus : List DBClusterInfo) : Option OldResourceHit :=
  match insts.find? (fun i => matchesOldName base i.id) with
  | some i => some ⟨"instance", i.id, some i.instClass⟩
  | none =>
    match clus.find? (fun c => matchesOldName base c.id) with
    | some c => some ⟨"cluster", c.id, c.writerClass⟩
    | none => none

/-- Python `identifier.endswith(suffix)` on the char-list view of strings. -/
def strEndsWith (id suf : String) : Bool := suf.data.isSuffixOf id.data

/-- The suffix stripping at the top of the resize script's
`rollback_with_reverse_bg` (rds_bg_resize.py lines 806-811): the first
suffix of `OLD_RESOURCE_SUFFIXES` that `identifier` ends with is removed
(`identifier[:-len(suffix)]`); without a match the identifier is kept. -/
def stripOldSuffix (identifier : String) : String :=
  match OLD_RESOURCE_SUFFIXES.find? (fun suf => strEndsWith identifier suf) with
  | some suf => ⟨identifier.data.take (identifier.data.length - suf.data.length)⟩
  | none => identifier

/-- The base identifier the downgrade script's `rollback_with_reverse_bg`
(rds_bg_downgrade.py lines 700-739) hands to `find_old_resource_like`: the
incoming identifier unchanged — that variant performs no suffix stripping. -/
def rollbackBaseDowngrade (identifier : String) : String := identifier

/-- The candidate test of the resize script's `delete_old_resource`
(rds_bg_resize.py lines 685-698): the identifier merely has to end with one
of the suffixes — no base identifier is involved. -/
def isDeleteCandidate (id : String) : Bool :=
  OLD_RESOURCE_SUFFIXES.any (fun suf => strEndsWith id suf)

/-- The candidate test of the downgrade script's `delete_old_resource`
(rds_bg_downgrade.py lines 582-598), with that file's inline suffix order. -/
def isDeleteCandidateDowngrade (id : String) : Bool :=
  DOWNGRADE_DELETE_SUFFIXES.any (fun suf => strEndsWith id suf)

end RDSBG

namespace RDSBG

/-! ## Sanity examples for the embeddings -/

example : Resize.print_precheck_summary ⟨some 35, some ((6/5) * GIB), none, none, some 0⟩
    = true := by
  simp only [Resize.print_precheck_summary, orZero, Option.getD_some, Option.getD_none, CPU_WARNING_THRESHOLD,
    MEMORY_WARNING_GIB, COMBINED_CPU_THRESHOLD, COMBINED_MEMORY_THRESHOLD, GIB]
  norm_num

example : Resize.print_precheck_summary ⟨none, none, none, none, none⟩ = false := by
  simp only [Resize.print_precheck_summary, orZero, Option.getD_some, Option.getD_none, CPU_WARNING_THRESHOLD,
    MEMORY_WARNING_GIB, COMBINED_CPU_THRESHOLD, COMBINED_MEMORY_THRESHOLD, GIB]
  norm_num

example : lookupSpec INSTANCE_SPECS "db.t3.medium" = some (2, 4) := by decide

/-! ## Claim C2 — missing telemetry in the health gate

The claim says a missing metric is treated as the most permissive value, so
absence never blocks, and in particular a sample with no free-memory
datapoint passes.  The code coerces every missing metric to `0.0`
(`metrics.get(...) or 0.0`); `0` is most permissive for CPU and connections
but most restrictive for free memory, whose rule is `free_mem < threshold`.
So a missing free-memory datapoint always fails the memory rule, in both
scripts. -/

/-- Claim C2 counterexample: a sample with no free-memory datapoint,
utilization 35 (at most the warning threshold 40) and no connections is
rejected by `print_precheck_summary` in both scripts, where the claim
demands `passed=true`. -/
theorem precheck_missing_free_memory_fails :
    Resize.print_precheck_summary ⟨some 35, none, none, none, none⟩ = false ∧
    Downgrade.print_precheck_summary ⟨some 35, none, none, none, none⟩ = false := by
  constructor
  · simp only [Resize.print_precheck_summary, orZero, Option.getD_some, Option.getD_none, CPU_WARNING_THRESHOLD,
      MEMORY_WARNING_GIB, COMBINED_CPU_THRESHOLD, COMBINED_MEMORY_THRESHOLD, GIB]
    norm_num
  · simp only [Downgrade.print_precheck_summary, orZero, Option.getD_some, Option.getD_none, GIB]
    norm_num

/-- Claim C2 (amended): a missing metric is coerced to `0`; absence of the
utilization or connections metric never by itself causes the check to fail
(given enough free memory both variants still pass), but absence of the
free-memory metric always fails the memory rule, so such a sample returns
`passed=false` in both scripts. -/
theorem precheck_missing_metric_coerced_to_zero :
    (∀ m : Metrics, m.freeMem = none →
      Resize.print_precheck_summary m = false ∧ Downgrade.print_precheck_summary m = false) ∧
    (∀ m : Metrics, m.cpu = none → m.conns = none →
      (GIB ≤ orZero m.freeMem → Resize.print_precheck_summary m = true) ∧
      ((3 / 2) * GIB ≤ orZero m.freeMem → Downgrade.print_precheck_summary m = true)) := by
  constructor
  · intro m h
    constructor
    · simp only [Resize.print_precheck_summary, orZero, h, Option.getD_some, Option.getD_none, CPU_WARNING_THRESHOLD,
        MEMORY_WARNING_GIB, COMBINED_CPU_THRESHOLD, COMBINED_MEMORY_THRESHOLD, GIB]
      norm_num
    · simp only [Downgrade.print_precheck_summary, orZero, h, Option.getD_some, Option.getD_none, GIB]
      norm_num
  · intro m hc hn
    constructor
    · intro hfm
      simp only [orZero] at hfm
      simp only [Resize.print_precheck_summary, orZero, hc, hn, Option.getD_some, Option.getD_none,
        CPU_WARNING_THRESHOLD, MEMORY_WARNING_GIB, COMBINED_CPU_THRESHOLD,
        COMBINED_MEMORY_THRESHOLD]
      rw [if_neg (by norm_num), if_neg (by rw [one_mul]; exact not_lt.mpr hfm),
        if_neg (by norm_num)]
    · intro hfm
      simp only [orZero] at hfm
      simp only [Downgrade.print_precheck_summary, orZero, hc, hn, Option.getD_some, Option.getD_none]
      rw [if_neg (by norm_num), if_neg (not_lt.mpr hfm), if_neg (by norm_num)]

/-- Claim C2 witness: both parts of the amended theorem instantiated —
the first at the missing-free-memory sample, the second at a sample with
no cpu and no connections datapoints and 2 GiB free. -/
theorem precheck_missing_metric_coerced_to_zero_witness :
    ((⟨some 35, none, none, none, none⟩ : Metrics).freeMem = none ∧
      Resize.print_precheck_summary ⟨some 35, none, none, none, none⟩ = false ∧
      Downgrade.print_precheck_summary ⟨some 35, none, none, none, none⟩ = false) ∧
    ((⟨none, some (2 * GIB), none, none, none⟩ : Metrics).cpu = none ∧
      (⟨none, some (2 * GIB), none, none, none⟩ : Metrics).conns = none ∧
      GIB ≤ orZero (some (2 * GIB)) ∧
      Resize.print_precheck_summary ⟨none, some (2 * GIB), none, none, none⟩ = true ∧
      (3 / 2) * GIB ≤ orZero (some (2 * GIB)) ∧
      Downgrade.print_precheck_summary ⟨none, some (2 * GIB), none, none, none⟩ = true) := by
  have h1 := precheck_missing_metric_coerced_to_zero.1 ⟨some 35, none, none, none, none⟩ rfl
  have h2 := precheck_missing_metric_coerced_to_zero.2 ⟨none, some (2 * GIB), none, none, none⟩
    rfl rfl
  have hge : GIB ≤ orZero (some (2 * GIB)) := by
    simp only [orZero, Option.getD_some]
    norm_num [GIB]
  have hge2 : (3 / 2) * GIB ≤ orZero (some (2 * GIB)) := by
    simp only [orZero, Option.getD_some]
    norm_num [GIB]
  exact ⟨⟨rfl, h1.1, h1.2⟩, ⟨rfl, rfl, hge, h2.1 hge, hge2, h2.2 hge2⟩⟩

/-! ## Claim C3 — the 1 GiB memory rule

The claim fixes the individual memory rule at 1.0 GiB and asserts that a
sample with utilization ≤ 40, at least 1 GiB free (e.g. 1.2 GiB) and a false
combined condition passes.  That is exactly the resize script; the downgrade
script's inline threshold is `1.5 * 1024**3`, so a 1.2 GiB sample fails
there. -/

/-- Claim C3 counterexample: utilization 35 ≤ 40, free memory 1.2 GiB ≥ 1 GiB,
no connections (combined-pressure condition false) — the claim demands
`passed=true`, but the downgrade script's `print_precheck_summary` (one of
the claim's two cited code sites) returns `False`, because its memory
threshold is 1.5 GiB. -/
theorem precheck_downgrade_rejects_1_2_gib :
    Downgrade.print_precheck_summary ⟨some 35, some ((6 / 5) * GIB), none, none, some 0⟩
      = false := by
  simp only [Downgrade.print_precheck_summary, orZero, Option.getD_some, Option.getD_none, GIB]
  norm_num

/-- Claim C3 (amended): for a sample whose utilization is at most 40 and
whose combined-pressure condition is false, the gate's verdict is decided by
the memory rule alone, and its threshold differs between the scripts: the
resize variant passes exactly when free memory is at least 1.0 GiB, the
downgrade variant exactly when it is at least 1.5 GiB (so 1.2 GiB passes the
resize gate and fails the downgrade gate). -/
theorem precheck_memory_rule_thresholds :
    ∀ (m : Metrics) (cpu fm : ℚ), m.cpu = some cpu → cpu ≤ 40 → m.freeMem = some fm →
    ¬ (0 < orZero m.conns ∧ 30 < cpu ∧ fm < 2 * GIB) →
    (Resize.print_precheck_summary m = true ↔ GIB ≤ fm) ∧
    (Downgrade.print_precheck_summary m = true ↔ (3 / 2) * GIB ≤ fm) := by
  intro m cpu fm hcpu hle hfm hcomb
  simp only [orZero] at hcomb
  constructor
  · simp only [Resize.print_precheck_summary, orZero, hcpu, hfm, Option.getD_some, Option.getD_none,
      CPU_WARNING_THRESHOLD, MEMORY_WARNING_GIB, COMBINED_CPU_THRESHOLD,
      COMBINED_MEMORY_THRESHOLD, one_mul]
    rw [if_neg hcomb, if_neg (not_lt.mpr hle)]
    by_cases hmem : fm < GIB
    · rw [if_pos hmem]
      simp [not_le.mpr hmem]
    · rw [if_neg hmem]
      simp [not_lt.mp hmem]
  · simp only [Downgrade.print_precheck_summary, orZero, hcpu, hfm, Option.getD_some, Option.getD_none]
    rw [if_neg hcomb, if_neg (not_lt.mpr hle)]
    by_cases hmem : fm < (3 / 2) * GIB
    · rw [if_pos hmem]
      simp [not_le.mpr hmem]
    · rw [if_neg hmem]
      simp [not_lt.mp hmem]

/-- Claim C3 witness: the amended theorem at utilization 35 and 1.2 GiB free
with zero connections; the resize gate passes (1.2 GiB ≥ 1 GiB) and the
downgrade gate fails (1.2 GiB < 1.5 GiB). -/
theorem precheck_memory_rule_thresholds_witness :
    ((⟨some 35, some ((6 / 5) * GIB), none, none, some 0⟩ : Metrics).cpu = some 35 ∧
      (35 : ℚ) ≤ 40 ∧
      (⟨some 35, some ((6 / 5) * GIB), none, none, some 0⟩ : Metrics).freeMem
        = some ((6 / 5) * GIB) ∧
      ¬ (0 < orZero (⟨some 35, some ((6 / 5) * GIB), none, none, some 0⟩ : Metrics).conns ∧
          (30 : ℚ) < 35 ∧ (6 / 5) * GIB < 2 * GIB)) ∧
    (Resize.print_precheck_summary ⟨some 35, some ((6 / 5) * GIB), none, none, some 0⟩ = true
        ↔ GIB ≤ (6 / 5) * GIB) ∧
    (Downgrade.print_precheck_summary ⟨some 35, some ((6 / 5) * GIB), none, none, some 0⟩ = true
        ↔ (3 / 2) * GIB ≤ (6 / 5) * GIB) := by
  have hcomb : ¬ (0 < orZero (⟨some 35, some ((6 / 5) * GIB), none, none, some 0⟩
      : Metrics).conns ∧ (30 : ℚ) < 35 ∧ (6 / 5) * GIB < 2 * GIB) := by
    simp only [orZero, Option.getD_some]
    norm_num
  exact ⟨⟨rfl, by norm_num, rfl, hcomb⟩,
    precheck_memory_rule_thresholds _ 35 _ rfl (by norm_num) rfl hcomb⟩

/-! ## Claims C5 and C6 — the suitability projector -/

/-- Every class the spec table knows has a positive vCPU count (generic
lookup lemma). -/
theorem lookupSpec_vcpu_pos (l : List (String × ℕ × ℕ)) (hl : ∀ e ∈ l, 0 < e.2.1) :
    ∀ key v, lookupSpec l key = some v → 0 < v.1 := by
  induction l with
  | nil => intro key v h; simp [lookupSpec] at h
  | cons e rest ih =>
    intro key v h
    obtain ⟨k, cv, cm⟩ := e
    simp only [lookupSpec] at h
    by_cases hk : k = key
    · rw [if_pos hk] at h
      cases h
      exact hl _ (List.mem_cons_self _ _)
    · rw [if_neg hk] at h
      exact ih (fun x hx => hl x (List.mem_cons_of_mem _ hx)) key v h

/-- Every class in `INSTANCE_SPECS` has a positive vCPU count. -/
theorem specs_vcpu_pos : ∀ key v, lookupSpec INSTANCE_SPECS key = some v → 0 < v.1 :=
  lookupSpec_vcpu_pos _ (by decide)

/-- Claim C5 (confirmed): for every pair of classes present in
`INSTANCE_SPECS` the projections are `projected_cpu = cpu * (curr_vcpu /
tgt_vcpu)` (cpu unchanged when `tgt_vcpu = 0`) and `projected_mem =
free_mem_gib + (tgt_mem - curr_mem)`; and for source db.t3.medium, target
db.t3.large and the sample with utilization 35 and 1.2 GiB free, the check
projects cpu 35 and 5.2 GiB free, reports no issue and no warning, and
returns `True`. -/
theorem suitability_projection_formulas :
    (∀ (c t : String) (cv cm tv tm : ℕ) (m : Metrics),
      lookupSpec INSTANCE_SPECS c = some (cv, cm) →
      lookupSpec INSTANCE_SPECS t = some (tv, tm) →
      (check_target_class_suitability c t m).projCpu =
        some (if 0 < tv then orZero m.cpu * ((cv : ℚ) / (tv : ℚ)) else orZero m.cpu) ∧
      (check_target_class_suitability c t m).projMem =
        some (orZero m.freeMem / GIB + ((tm : ℚ) - (cm : ℚ)))) ∧
    ((check_target_class_suitability "db.t3.medium" "db.t3.large"
        ⟨some 35, some ((6 / 5) * GIB), none, none, none⟩).projCpu = some 35 ∧
     (check_target_class_suitability "db.t3.medium" "db.t3.large"
        ⟨some 35, some ((6 / 5) * GIB), none, none, none⟩).projMem = some (26 / 5) ∧
     (check_target_class_suitability "db.t3.medium" "db.t3.large"
        ⟨some 35, some ((6 / 5) * GIB), none, none, none⟩).ok = true ∧
     (check_target_class_suitability "db.t3.medium" "db.t3.large"
        ⟨some 35, some ((6 / 5) * GIB), none, none, none⟩).issues = [] ∧
     (check_target_class_suitability "db.t3.medium" "db.t3.large"
        ⟨some 35, some ((6 / 5) * GIB), none, none, none⟩).warnings = []) := by
  constructor
  · intro c t cv cm tv tm m h1 h2
    constructor
    · simp only [check_target_class_suitability, h1, h2]
    · simp only [check_target_class_suitability, h1, h2]
  · have h1 : lookupSpec INSTANCE_SPECS "db.t3.medium" = some (2, 4) := by decide
    have h2 : lookupSpec INSTANCE_SPECS "db.t3.large" = some (2, 8) := by decide
    simp only [check_target_class_suitability, h1, h2, orZero, Option.getD_some,
      Option.getD_none, CPU_CRITICAL_THRESHOLD, CPU_WARNING_THRESHOLD, MEMORY_CRITICAL_GIB,
      MEMORY_WARNING_GIB]
    norm_num [GIB]

/-- Claim C5 witness: the universal projection formulas instantiated at the
db.t3.medium → db.t3.large pair and the utilization-35 / 1.2-GiB sample. -/
theorem suitability_projection_formulas_witness :
    (lookupSpec INSTANCE_SPECS "db.t3.medium" = some (2, 4) ∧
     lookupSpec INSTANCE_SPECS "db.t3.large" = some (2, 8)) ∧
    (check_target_class_suitability "db.t3.medium" "db.t3.large"
        ⟨some 35, some ((6 / 5) * GIB), none, none, none⟩).projCpu =
      some (if 0 < (2 : ℕ) then
        orZero (some 35) * (((2 : ℕ) : ℚ) / ((2 : ℕ) : ℚ)) else orZero (some 35)) ∧
    (check_target_class_suitability "db.t3.medium" "db.t3.large"
        ⟨some 35, some ((6 / 5) * GIB), none, none, none⟩).projMem =
      some (orZero (some ((6 / 5) * GIB)) / GIB + (((8 : ℕ) : ℚ) - ((4 : ℕ) : ℚ))) := by
  have h := suitability_projection_formulas.1 "db.t3.medium" "db.t3.large" 2 4 2 8
    ⟨some 35, some ((6 / 5) * GIB), none, none, none⟩ (by decide) (by decide)
  exact ⟨⟨by decide, by decide⟩, h.1, h.2⟩

/-- Claim C6 (confirmed): for every pair of classes in `INSTANCE_SPECS` with
`tgt_vcpu ≥ curr_vcpu` and `tgt_mem ≥ curr_mem`, and every sample whose
coerced utilization is at most 80 and whose coerced free memory is at least
0.5 GiB (the current class is not already critical), the suitability check
reports no critical issue and returns `True`. -/
theorem upgrade_never_critical :
    ∀ (c t : String) (cv cm tv tm : ℕ) (m : Metrics),
    lookupSpec INSTANCE_SPECS c = some (cv, cm) →
    lookupSpec INSTANCE_SPECS t = some (tv, tm) →
    cv ≤ tv → cm ≤ tm →
    orZero m.cpu ≤ 80 → (1 / 2) * GIB ≤ orZero m.freeMem →
    (check_target_class_suitability c t m).issues = [] ∧
    (check_target_class_suitability c t m).ok = true := by
  intro c t cv cm tv tm m h1 h2 hv hm hcpu hmem
  have htv : 0 < tv := specs_vcpu_pos t (tv, tm) h2
  have hratio0 : (0 : ℚ) ≤ (cv : ℚ) / (tv : ℚ) := div_nonneg (Nat.cast_nonneg _) (Nat.cast_nonneg _)
  have hratio1 : (cv : ℚ) / (tv : ℚ) ≤ 1 := by
    rw [div_le_one (by exact_mod_cast htv)]
    exact_mod_cast hv
  have hpc : orZero m.cpu * ((cv : ℚ) / (tv : ℚ)) ≤ 80 := by
    rcases le_or_lt 0 (orZero m.cpu) with h0 | h0
    · calc orZero m.cpu * ((cv : ℚ) / (tv : ℚ)) ≤ orZero m.cpu * 1 :=
          mul_le_mul_of_nonneg_left hratio1 h0
        _ = orZero m.cpu := mul_one _
        _ ≤ 80 := hcpu
    · have hz := mul_le_mul_of_nonneg_right h0.le hratio0
      rw [zero_mul] at hz
      linarith
  have hGIB : (0 : ℚ) < GIB := by norm_num [GIB]
  have hpm : (1 : ℚ) / 2 ≤ orZero m.freeMem / GIB + ((tm : ℚ) - (cm : ℚ)) := by
    have hmg : (1 : ℚ) / 2 ≤ orZero m.freeMem / GIB := by
      rw [le_div_iff₀ hGIB]
      linarith
    have hsub : (0 : ℚ) ≤ (tm : ℚ) - (cm : ℚ) := sub_nonneg.mpr (by exact_mod_cast hm)
    linarith
  simp only [check_target_class_suitability, h1, h2, CPU_CRITICAL_THRESHOLD,
    CPU_WARNING_THRESHOLD, MEMORY_CRITICAL_GIB, MEMORY_WARNING_GIB]
  rw [if_pos htv, if_neg (not_lt.mpr hpc), if_neg (not_lt.mpr hpm)]
  exact ⟨rfl, rfl⟩

/-- Claim C6 witness: the upgrade pair db.t3.medium → db.t3.large with a
utilization-35 / 1-GiB-free sample: not critical now, so no critical issue
and a `True` verdict. -/
theorem upgrade_never_critical_witness :
    (lookupSpec INSTANCE_SPECS "db.t3.medium" = some (2, 4) ∧
     lookupSpec INSTANCE_SPECS "db.t3.large" = some (2, 8) ∧
     (2 : ℕ) ≤ 2 ∧ (4 : ℕ) ≤ 8 ∧
     orZero (some 35) ≤ 80 ∧ (1 / 2) * GIB ≤ orZero (some GIB)) ∧
    (check_target_class_suitability "db.t3.medium" "db.t3.large"
        ⟨some 35, some GIB, none, none, none⟩).issues = [] ∧
    (check_target_class_suitability "db.t3.medium" "db.t3.large"
        ⟨some 35, some GIB, none, none, none⟩).ok = true := by
  have hcpu : orZero (some (35 : ℚ)) ≤ 80 := by
    simp only [orZero, Option.getD_some]
    norm_num
  have hmem : (1 / 2 : ℚ) * GIB ≤ orZero (some GIB) := by
    simp only [orZero, Option.getD_some]
    norm_num [GIB]
  exact ⟨⟨by decide, by decide, le_refl _, by norm_num, hcpu, hmem⟩,
    upgrade_never_critical "db.t3.medium" "db.t3.large" 2 4 2 8
      ⟨some 35, some GIB, none, none, none⟩ (by decide) (by decide) (le_refl _)
      (by norm_num) hcpu hmem⟩

/-! ## Claim C1 — the ready wait

The claim says `wait_switch_ready` returns `true` iff the first
ready-or-terminal status observed is `AVAILABLE` or `SWITCH_READY`, and
`false` on every terminal status including `SWITCHOVER_COMPLETED`.  The code
ends the terminal branch with `return status == "SWITCHOVER_COMPLETED"`, so
an already-completed switchover yields `true`. -/

/-- Claim C1 counterexample: a deployment polled as `SWITCHOVER_COMPLETED`
on the first poll (a terminal status observed before any ready state, with
the default 180-poll budget of 90 min / 30 s) makes `wait_switch_ready`
return `true`, where the claim demands `false`. -/
theorem wait_switch_ready_completed_returns_true :
    wait_switch_ready (fun _ => some "SWITCHOVER_COMPLETED") 180 0 = true := by decide

/-- Claim C1 (amended): for every polled status sequence, `wait_switch_ready`
returns `true` iff the first NotFound-or-ready-or-terminal observation made
within its poll budget is a status in `{SWITCH_READY, AVAILABLE,
SWITCHOVER_COMPLETED}`; it returns `false` when that first observation is
NotFound or one of `{SWITCHOVER_FAILED, DELETED}`, and when no such
observation occurs within the budget (the 90-minute timeout). -/
theorem wait_switch_ready_first_decision :
    ∀ (polls : ℕ → Option String) (fuel i : ℕ),
    wait_switch_ready polls fuel i = true ↔
      ∃ st, firstDecisiveEvent polls fuel i = some (some st) ∧
        (st = "SWITCH_READY" ∨ st = "AVAILABLE" ∨ st = "SWITCHOVER_COMPLETED") := by
  intro polls fuel
  induction fuel with
  | zero =>
    intro i
    simp [wait_switch_ready, firstDecisiveEvent]
  | succ n ih =>
    intro i
    cases hp : polls i with
    | none => simp [wait_switch_ready, firstDecisiveEvent, hp]
    | some st =>
      simp only [wait_switch_ready, firstDecisiveEvent, hp]
      by_cases hr : st ∈ READY_STATUSES
      · have hd : decisiveStatus st = true := by
          simp [decisiveStatus, hr]
        rw [if_pos hr, if_pos hd]
        simp only [READY_STATUSES, List.mem_cons, List.mem_singleton,
          List.not_mem_nil, or_false] at hr
        simp only [Option.some.injEq, true_iff]
        exact ⟨st, rfl, by tauto⟩
      · by_cases ht : st ∈ TERMINAL_STATUSES
        · have hd : decisiveStatus st = true := by
            simp [decisiveStatus, ht]
          rw [if_neg hr, if_pos ht, if_pos hd]
          simp only [READY_STATUSES, List.mem_cons, List.mem_singleton,
            List.not_mem_nil, or_false, not_or] at hr
          simp only [TERMINAL_STATUSES, List.mem_cons, List.mem_singleton,
            List.not_mem_nil, or_false] at ht
          simp only [Option.some.injEq, decide_eq_true_eq]
          constructor
          · intro hc
            exact ⟨st, rfl, Or.inr (Or.inr hc)⟩
          · rintro ⟨st', hst', hcase⟩
            cases hst'
            rcases hcase with h | h | h
            · exact absurd h hr.1
            · exact absurd h hr.2
            · exact h
        · have hd : decisiveStatus st = false := by
            simp [decisiveStatus, hr, ht]
          rw [if_neg hr, if_neg ht, if_neg (by simp [hd])]
          exact ih (i + 1)

/-! ## Claim C4 — switch_over

The claim says `switch_over` raises on terminal failures and that a
NotFound deployment is fatal and propagated, never a quiet return.  The
code's NotFound branch is `print(...); return` — a normal return that the
caller cannot tell apart from success. -/

/-- Claim C4 counterexample: a deployment whose first post-switch poll
reports NotFound makes `switch_over` return normally (an `Except.ok`, the
quiet `print; return` branch), where the claim demands a propagated fatal
error. -/
theorem switch_over_not_found_quiet_return :
    switch_over [none] = some (Except.ok SwitchReturn.notFoundQuiet) := rfl

/-- Claim C4 (amended): after issuing the cut-over command, `switch_over`
polls every 10 seconds with no timeout; it keeps polling while statuses are
non-decisive, and at the first decisive observation it returns normally on
`SWITCHOVER_COMPLETED`, returns normally (quietly, not raising) on NotFound,
and raises an error carrying the final status exactly on `SWITCHOVER_FAILED`
or `DELETED`. -/
theorem switch_over_first_decision :
    (∀ (pre : List (Option String)) (p : Option String) (post : List (Option String)),
      (∀ q ∈ pre, isSwitchDecisive q = false) → isSwitchDecisive p = true →
      switch_over (pre ++ p :: post) = some (switchDecision p)) ∧
    (∀ polls : List (Option String), (∀ q ∈ polls, isSwitchDecisive q = false) →
      switch_over polls = none) ∧
    switchDecision none = Except.ok SwitchReturn.notFoundQuiet ∧
    (∀ st : String, st = "SWITCHOVER_FAILED" ∨ st = "DELETED" →
      switchDecision (some st) = Except.error st) ∧
    switchPollIntervalSeconds = 10 := by
  refine ⟨?_, ?_, rfl, ?_, rfl⟩
  · intro pre
    induction pre with
    | nil =>
      intro p post _ hp
      cases p with
      | none => rfl
      | some st =>
        simp only [isSwitchDecisive, decide_eq_true_eq] at hp
        simp only [List.nil_append, switch_over, switchDecision]
        by_cases h1 : st = "SWITCHOVER_COMPLETED"
        · rw [if_pos h1, if_pos h1]
        · rw [if_neg h1, if_neg h1, if_pos (by tauto)]
    | cons q pre ih =>
      intro p post hpre hp
      have hq := hpre q (List.mem_cons_self _ _)
      cases q with
      | none => simp [isSwitchDecisive] at hq
      | some st =>
        simp only [isSwitchDecisive, decide_eq_false_iff_not, not_or] at hq
        simp only [List.cons_append, switch_over]
        rw [if_neg hq.1, if_neg (by tauto)]
        exact ih p post (fun x hx => hpre x (List.mem_cons_of_mem _ hx)) hp
  · intro polls hall
    induction polls with
    | nil => rfl
    | cons q rest ih =>
      have hq := hall q (List.mem_cons_self _ _)
      cases q with
      | none => simp [isSwitchDecisive] at hq
      | some st =>
        simp only [isSwitchDecisive, decide_eq_false_iff_not, not_or] at hq
        simp only [switch_over]
        rw [if_neg hq.1, if_neg (by tauto)]
        exact ih (fun x hx => hall x (List.mem_cons_of_mem _ hx))
  · intro st hst
    simp only [switchDecision]
    rw [if_neg (by rcases hst with h | h <;> simp [h])]

/-- Claim C4 witness: the first-decision theorem at a one-poll sequence
observing `SWITCHOVER_FAILED`: the loop raises, carrying the final status. -/
theorem switch_over_first_decision_witness :
    (∀ q ∈ ([] : List (Option String)), isSwitchDecisive q = false) ∧
    isSwitchDecisive (some "SWITCHOVER_FAILED") = true ∧
    switch_over [some "SWITCHOVER_FAILED"] =
      some (switchDecision (some "SWITCHOVER_FAILED")) ∧
    ("SWITCHOVER_FAILED" = "SWITCHOVER_FAILED" ∨ "SWITCHOVER_FAILED" = "DELETED") ∧
    switchDecision (some "SWITCHOVER_FAILED") = Except.error "SWITCHOVER_FAILED" := by
  refine ⟨by simp, by decide, ?_, Or.inl rfl, ?_⟩
  · exact switch_over_first_decision.1 [] (some "SWITCHOVER_FAILED") [] (by simp) (by decide)
  · exact switch_over_first_decision.2.2.2.1 "SWITCHOVER_FAILED" (Or.inl rfl)

/-! ## Claim C9 — the snapshot wait -/

/-- Claim C9 (confirmed): `wait_snapshot_progress` is invariant under any
rewriting of the percent-progress values (they are printed, never used for
control flow); it keeps polling while it sees non-`available` statuses and
snapshot-not-found errors (the latter silently swallowed); and at the first
decisive poll it returns exactly on status `available` and re-raises exactly
on any other provider error, carrying its code. -/
theorem wait_snapshot_progress_spec :
    (∀ (f : ℤ → ℤ) (polls : List SnapPoll),
      wait_snapshot_progress (polls.map (mapPct f)) = wait_snapshot_progress polls) ∧
    (∀ (pre : List SnapPoll) (p : SnapPoll) (post : List SnapPoll),
      (∀ q ∈ pre, isSnapDecisive q = false) → isSnapDecisive p = true →
      wait_snapshot_progress (pre ++ p :: post) = snapDecision p) ∧
    (∀ polls : List SnapPoll, (∀ q ∈ polls, isSnapDecisive q = false) →
      wait_snapshot_progress polls = SnapResult.pending) ∧
    (∀ (status : String) (pct : ℤ),
      isSnapDecisive (.ok status pct) = true ↔ status = "available") ∧
    isSnapDecisive SnapPoll.errNotFound = false ∧
    (∀ code : String, isSnapDecisive (.errOther code) = true ∧
      snapDecision (.errOther code) = SnapResult.raised code) := by
  refine ⟨?_, ?_, ?_, ?_, rfl, fun code => ⟨rfl, rfl⟩⟩
  · intro f polls
    induction polls with
    | nil => rfl
    | cons q rest ih =>
      cases q with
      | ok status pct => simp [mapPct, wait_snapshot_progress, ih]
      | errNotFound => simp [mapPct, wait_snapshot_progress, ih]
      | errOther code => simp [mapPct, wait_snapshot_progress]
  · intro pre
    induction pre with
    | nil =>
      intro p post _ hp
      cases p with
      | ok status pct =>
        simp only [isSnapDecisive, decide_eq_true_eq] at hp
        simp [wait_snapshot_progress, snapDecision, hp]
      | errNotFound => simp [isSnapDecisive] at hp
      | errOther code => rfl
    | cons q pre ih =>
      intro p post hpre hp
      have hq := hpre q (List.mem_cons_self _ _)
      cases q with
      | ok status pct =>
        simp only [isSnapDecisive, decide_eq_false_iff_not] at hq
        simp only [List.cons_append, wait_snapshot_progress]
        rw [if_neg hq]
        exact ih p post (fun x hx => hpre x (List.mem_cons_of_mem _ hx)) hp
      | errNotFound =>
        simp only [List.cons_append, wait_snapshot_progress]
        exact ih p post (fun x hx => hpre x (List.mem_cons_of_mem _ hx)) hp
      | errOther code => simp [isSnapDecisive] at hq
  · intro polls hall
    induction polls with
    | nil => rfl
    | cons q rest ih =>
      have hq := hall q (List.mem_cons_self _ _)
      cases q with
      | ok status pct =>
        simp only [isSnapDecisive, decide_eq_false_iff_not] at hq
        simp only [wait_snapshot_progress]
        rw [if_neg hq]
        exact ih (fun x hx => hall x (List.mem_cons_of_mem _ hx))
      | errNotFound =>
        simp only [wait_snapshot_progress]
        exact ih (fun x hx => hall x (List.mem_cons_of_mem _ hx))
      | errOther code => simp [isSnapDecisive] at hq
  · intro status pct
    simp [isSnapDecisive]

/-- Claim C9 witness: a poll sequence that hits a not-found error right
after creation (swallowed), then an in-progress status, then `available`:
the wait returns normally, and changing every progress value does not
change the outcome. -/
theorem wait_snapshot_progress_spec_witness :
    (∀ q ∈ [SnapPoll.errNotFound, SnapPoll.ok "creating" 50],
      isSnapDecisive q = false) ∧
    isSnapDecisive (.ok "available" 100) = true ∧
    wait_snapshot_progress
        [SnapPoll.errNotFound, SnapPoll.ok "creating" 50, SnapPoll.ok "available" 100] =
      snapDecision (.ok "available" 100) ∧
    wait_snapshot_progress
        (([SnapPoll.errNotFound, SnapPoll.ok "creating" 50,
           SnapPoll.ok "available" 100]).map (mapPct (fun _ => 0))) =
      wait_snapshot_progress
        [SnapPoll.errNotFound, SnapPoll.ok "creating" 50, SnapPoll.ok "available" 100] := by
  refine ⟨by decide, by decide, ?_, ?_⟩
  · exact wait_snapshot_progress_spec.2.1 [SnapPoll.errNotFound, SnapPoll.ok "creating" 50]
      (SnapPoll.ok "available" 100) [] (by decide) (by decide)
  · exact wait_snapshot_progress_spec.1 (fun _ => 0)
      [SnapPoll.errNotFound, SnapPoll.ok "creating" 50, SnapPoll.ok "available" 100]

/-! ## Claim C7 — rollback suffix stripping

Only the resize script's `rollback_with_reverse_bg` strips a known suffix
before the old-resource search; the downgrade script's rollback hands its
identifier to `find_old_resource_like` unchanged (rds_bg_downgrade.py line
707), with no stripping loop at all. -/

/-- Claim C7 counterexample: the downgrade script's rollback (one of the
claim's two cited code sites) computes no base from `"orders-old1"` — it
uses the identifier as given, not the claimed `"orders"`. -/
theorem downgrade_rollback_does_not_strip :
    rollbackBaseDowngrade "orders-old1" = "orders-old1" ∧
    "orders-old1" ≠ "orders" := ⟨rfl, by decide⟩

/-- Claim C7 (amended): the resize script's rollback strips the first known
old-resource suffix to obtain the canonical base — `"orders-old1"` becomes
`"orders"`, and an identifier ending in no known suffix is unchanged —
while the downgrade script's rollback performs no stripping and searches
with the identifier exactly as given. -/
theorem rollback_base_computation :
    stripOldSuffix "orders-old1" = "orders" ∧
    (∀ identifier : String,
      (∀ suf ∈ OLD_RESOURCE_SUFFIXES, strEndsWith identifier suf = false) →
      stripOldSuffix identifier = identifier) ∧
    (∀ identifier : String, rollbackBaseDowngrade identifier = identifier) := by
  refine ⟨by decide, ?_, fun _ => rfl⟩
  intro identifier h
  unfold stripOldSuffix
  have hf : OLD_RESOURCE_SUFFIXES.find? (fun suf => strEndsWith identifier suf) = none := by
    rw [List.find?_eq_none]
    intro x hx
    simp [h x hx]
  rw [hf]

/-- Claim C7 witness: the no-suffix branch of the amended theorem at
`"orders"`, which ends in none of the known suffixes and is left
unchanged. -/
theorem rollback_base_computation_witness :
    (∀ suf ∈ OLD_RESOURCE_SUFFIXES, strEndsWith "orders" suf = false) ∧
    stripOldSuffix "orders" = "orders" :=
  ⟨by decide, rollback_base_computation.2.1 "orders" (by decide)⟩

/-! ## Claim C8 — old-resource search order

`find_old_resource_like` iterates the provider's resource listings
(`describe_db_instances` then `describe_db_clusters`) and for each resource
asks whether its identifier equals `base + suffix` for ANY suffix; so the
winner is the first match in the provider's listing order, not the first
suffix in priority order. -/

/-- Generic first-match lemma for `List.find?`: with no match in the prefix
and a match at `x`, the search returns `x`. -/
theorem find_eq_some_of_first {α : Type} (p : α → Bool) :
    ∀ (pre : List α) (x : α) (post : List α),
    (∀ y ∈ pre, p y = false) → p x = true →
    List.find? p (pre ++ x :: post) = some x := by
  intro pre
  induction pre with
  | nil =>
    intro x post _ hx
    simp [List.find?_cons, hx]
  | cons a l ih =>
    intro x post hpre hx
    have ha := hpre a (List.mem_cons_self _ _)
    simp only [List.cons_append, List.find?_cons, ha]
    exact ih x post (fun y hy => hpre y (List.mem_cons_of_mem _ hy)) hx

/-- Claim C8 counterexample: a provider state in which both `app-old` and
`app-old1` exist, with `app-old` listed first: the search returns
`app-old`, not the most-specific-suffix resource `app-old1` the claim
demands. -/
theorem find_old_resource_not_suffix_priority :
    find_old_resource_like "app"
        [⟨"app-old", "db.t3.medium"⟩, ⟨"app-old1", "db.t3.large"⟩] [] =
      some ⟨"instance", "app-old", some "db.t3.medium"⟩ ∧
    find_old_resource_like "app"
        [⟨"app-old", "db.t3.medium"⟩, ⟨"app-old1", "db.t3.large"⟩] [] ≠
      some ⟨"instance", "app-old1", some "db.t3.large"⟩ := by
  constructor
  · rfl
  · decide

/-- Claim C8 (amended): `find_old_resource_like` accepts exactly the
identifiers equal to `base + suffix` for a suffix of the fixed set, and
returns the first accepted resource in the provider's listing order —
instances (in list order) before clusters (in list order); suffix priority
plays no role in the ordering. -/
theorem find_old_resource_first_in_listing :
    (∀ (base : String) (pre : List DBInstanceInfo) (i : DBInstanceInfo)
        (post : List DBInstanceInfo) (clus : List DBClusterInfo),
      (∀ j ∈ pre, matchesOldName base j.id = false) → matchesOldName base i.id = true →
      find_old_resource_like base (pre ++ i :: post) clus =
        some ⟨"instance", i.id, some i.instClass⟩) ∧
    (∀ (base : String) (insts : List DBInstanceInfo) (pre : List DBClusterInfo)
        (c : DBClusterInfo) (post : List DBClusterInfo),
      (∀ j ∈ insts, matchesOldName base j.id = false) →
      (∀ j ∈ pre, matchesOldName base j.id = false) → matchesOldName base c.id = true →
      find_old_resource_like base insts (pre ++ c :: post) =
        some ⟨"cluster", c.id, c.writerClass⟩) ∧
    (∀ base id, matchesOldName base id = true ↔
      ∃ suf ∈ OLD_RESOURCE_SUFFIXES, id = base ++ suf) := by
  refine ⟨?_, ?_, ?_⟩
  · intro base pre i post clus hpre hi
    have hfind := find_eq_some_of_first (fun j => matchesOldName base j.id) pre i post hpre hi
    simp only [find_old_resource_like, hfind]
  · intro base insts pre c post hinsts hpre hc
    have hnone : insts.find? (fun j => matchesOldName base j.id) = none := by
      rw [List.find?_eq_none]
      intro x hx
      simp [hinsts x hx]
    have hfind := find_eq_some_of_first (fun j => matchesOldName base j.id) pre c post hpre hc
    simp only [find_old_resource_like, hnone, hfind]
  · intro base id
    simp [matchesOldName, List.any_eq_true]

/-- Claim C8 witness: the instance branch of the listing-order theorem at a
singleton provider state holding exactly `app-old1`. -/
theorem find_old_resource_first_in_listing_witness :
    (∀ j ∈ ([] : List DBInstanceInfo), matchesOldName "app" j.id = false) ∧
    matchesOldName "app" (DBInstanceInfo.id ⟨"app-old1", "db.t3.large"⟩) = true ∧
    find_old_resource_like "app" [⟨"app-old1", "db.t3.large"⟩] [] =
      some ⟨"instance", "app-old1", some "db.t3.large"⟩ :=
  ⟨by simp, by decide,
    find_old_resource_first_in_listing.1 "app" [] ⟨"app-old1", "db.t3.large"⟩ [] []
      (by simp) (by decide)⟩

/-! ## Claim C10 — delete candidates vs rollback matches -/

/-- Claim C10 (confirmed): `delete_old_resource` offers a resource for
deletion exactly when its identifier merely ends with one of the five
suffixes — the test consults no base identifier, so an unrelated resource
like `unrelated-service-blue` is offered — the downgrade script's inline
suffix tuple selects the same candidates, and the rollback search instead
accepts exactly the identifiers equal to `base + suffix` (every rollback
match is in particular a delete candidate, but not conversely). -/
theorem delete_candidate_vs_rollback_match :
    (∀ id : String, isDeleteCandidate id = true ↔
      ∃ suf ∈ OLD_RESOURCE_SUFFIXES, strEndsWith id suf = true) ∧
    (∀ id : String, isDeleteCandidateDowngrade id = isDeleteCandidate id) ∧
    (∀ base id : String, matchesOldName base id = true ↔
      ∃ suf ∈ OLD_RESOURCE_SUFFIXES, id = base ++ suf) ∧
    (∀ base id : String, matchesOldName base id = true → isDeleteCandidate id = true) ∧
    (isDeleteCandidate "unrelated-service-blue" = true ∧
      matchesOldName "orders" "unrelated-service-blue" = false) := by
  have hmatch : ∀ base id : String, matchesOldName base id = true ↔
      ∃ suf ∈ OLD_RESOURCE_SUFFIXES, id = base ++ suf := by
    intro base id
    simp [matchesOldName, List.any_eq_true]
  refine ⟨?_, ?_, hmatch, ?_, by decide, by decide⟩
  · intro id
    simp [isDeleteCandidate, List.any_eq_true]
  · intro id
    simp only [isDeleteCandidateDowngrade, isDeleteCandidate, DOWNGRADE_DELETE_SUFFIXES,
      OLD_RESOURCE_SUFFIXES, List.any_cons, List.any_nil]
    have hb : ∀ a b c d e : Bool,
        (c || (a || (b || (d || (e || false))))) = (a || (b || (c || (d || (e || false))))) := by
      decide
    exact hb _ _ _ _ _
  · intro base id h
    rcases (hmatch base id).mp h with ⟨suf, hsuf, heq⟩
    have hends : strEndsWith id suf = true := by
      rw [heq]
      simp only [strEndsWith, String.data_append]
      rw [List.isSuffixOf_iff_suffix]
      exact List.suffix_append _ _
    simp only [isDeleteCandidate, List.any_eq_true]
    exact ⟨suf, hsuf, hends⟩

/-- Claim C10 witness: the containment direction at `base = "app"` and
`id = "app-old1"`: a rollback match is also a delete candidate. -/
theorem delete_candidate_vs_rollback_match_witness :
    matchesOldName "app" "app-old1" = true ∧ isDeleteCandidate "app-old1" = true :=
  ⟨by decide, delete_candidate_vs_rollback_match.2.2.2.1 "app" "app-old1" (by decide)⟩

end RDSBG
